import Mathlib

/-!
A shallow embedding of `infiniband-exporter.py`.

This development embeds the text-to-metrics pipeline of the InfiniBand
Prometheus exporter (`infiniband-exporter.py`) in Lean 4 and proves
properties of it.  Strings are handled as `List Char`; the handful of
regular expressions the exporter compiles are hand-translated into
deterministic scanners with explicit backtracking where the original
pattern backtracks (greedy `.*` segments are resolved by trying the
longest consumed prefix first, exactly as Python's `re` engine does).
Every definition carries a note naming the Python construct it embeds.
-/

set_option autoImplicit false

namespace Infiniband

/-! ## Character classes and elementary scanners -/

/-- Python `str` whitespace as used by `\s`, `str.lstrip()` (ASCII range). -/
def pyIsSpace (c : Char) : Bool :=
  c = ' ' || c = '\t' || c = '\n' || c = '\r' || c = '\x0b' || c = '\x0c'

/-- `\d` on ASCII input. -/
def isDigitC (c : Char) : Bool := c.isDigit

/-- `\w` on ASCII input: `[a-zA-Z0-9_]`. -/
def isWordC (c : Char) : Bool := c.isAlphanum || c = '_'

/-- `[\da-f]`: a lowercase hexadecimal digit. -/
def isHexLower (c : Char) : Bool := c.isDigit || ('a' ≤ c && c ≤ 'f')

/-- Characters of the `[\d+\.]` class in the active-link speed capture. -/
def isSpeedC (c : Char) : Bool := c.isDigit || c = '+' || c = '.'

/-- Characters of the `[\w\s]` class. -/
def isWordSpace (c : Char) : Bool := isWordC c || pyIsSpace c

/-- Characters of the `[\w;\s]` class. -/
def isWordSemiSpace (c : Char) : Bool := isWordC c || c = ';' || pyIsSpace c

/-- Drop the literal `w` from the head of `s`; `none` when `s` does not start
with it.  This is the scanner for a literal run inside a compiled pattern. -/
def dropLit : List Char → List Char → Option (List Char)
  | [], s => some s
  | _ :: _, [] => none
  | w :: ws, c :: cs => if c = w then dropLit ws cs else none

/-- Maximal munch of a character class: the longest run satisfying `p`
together with the remainder (`p*` in a pattern followed by a character
outside the class, which is how every class run in the exporter's patterns
is used). -/
def munch (p : Char → Bool) (s : List Char) : List Char × List Char :=
  (s.takeWhile p, s.dropWhile p)

/-- Like `munch` but fails unless the run is non-empty (`p+`). -/
def munch1 (p : Char → Bool) (s : List Char) : Option (List Char × List Char) :=
  match munch p s with
  | ([], _) => none
  | (r, rest) => some (r, rest)

/-- Greedy `.*` backtracking: try to run `k` on the suffix of `s` obtained by
dropping `i` characters, for `i = n, n-1, …, 0`; the first success wins.
Called with `n = s.length` this is exactly the Python engine's resolution of
a greedy `.*`: the longest consumed prefix whose continuation matches. -/
def tryDropsFrom {β : Type} (s : List Char) (k : Nat → List Char → Option β) :
    Nat → Option β
  | 0 => k 0 s
  | i + 1 =>
    match k (i + 1) (s.drop (i + 1)) with
    | some b => some b
    | none => tryDropsFrom s k i

/-- Resolve `.*k`: the longest prefix of `s` such that `k` succeeds on the
rest, returning `k`'s answer (which may use the dropped count for a capture). -/
def greedyScan {β : Type} (s : List Char) (k : Nat → List Char → Option β) : Option β :=
  tryDropsFrom s k s.length

/-- The value of a decimal-digit run, i.e. Python `int()` applied to a
captured `(\d+)` group. -/
def natOfDigits (ds : List Char) : Nat :=
  ds.foldl (fun n c => n * 10 + (c.toNat - '0'.toNat)) 0

/-- Substring test, Python's `needle in s`. -/
def hasSub (needle : List Char) : List Char → Bool
  | [] => (dropLit needle []).isSome
  | c :: cs => (dropLit needle (c :: cs)).isSome || hasSub needle cs

/-- Python `str.lstrip()` (no argument): strip leading whitespace. -/
def pyLstrip (s : String) : String :=
  String.mk (s.data.dropWhile pyIsSpace)

/-- Python `s.split("\n")` on the character list: the segments between the
newline characters, in order (an empty input gives one empty segment). -/
def splitNL : List Char → List (List Char)
  | [] => [[]]
  | c :: rest =>
    if c = '\n' then [] :: splitNL rest
    else
      match splitNL rest with
      | [] => [[c]]
      | l :: ls => (c :: l) :: ls

/-- Python `str.splitlines()` for LF-separated text (the exporter only ever
feeds it the output of `ibqueryerrors`, which uses `\n`): like
`split("\n")` but without a trailing empty segment after a final
newline. -/
def pySplitlines (s : String) : List String :=
  match s.data with
  | [] => []
  | cs =>
    let parts := splitNL cs
    let parts := if cs.getLast? = some '\n' then parts.dropLast else parts
    parts.map String.mk

/-- ASCII lowering of one character (Python `str.lower()` on the metric
names, which are ASCII). -/
def lowerChar (c : Char) : Char :=
  if 'A' ≤ c && c ≤ 'Z' then Char.ofNat (c.toNat + 32) else c

/-- Python `str.lower()` for the ASCII metric names. -/
def pyLower (s : String) : String := String.mk (s.data.map lowerChar)

/-! ## The exporter's compiled patterns, as scanners

Each function embeds one `re.compile(...)` of `InfinibandCollector.__init__`
together with the way it is applied (`match`, `fullmatch`, `split`,
`findall`/`search`). -/

/-- Tail of the device-header pattern: `\"(.*)\"$` — the line must continue
with a double quote and end with one, and the greedy `(.*)` captures
everything in between (i.e. up to the last quote of the line). -/
def quotedToEnd (r : List Char) : Option (List Char) :=
  match r with
  | '"' :: rest =>
    if rest.getLast? = some '"' && rest ≠ [] then some rest.dropLast else none
  | _ => none

/-- `ibqueryerrors_header_regex_str`:
`^Errors for (?:0[x][\da-f]+ )?\"(.*)\"$` applied to one full line
(with `re.MULTILINE`, `^`/`$` pin the match to a whole line).  Returns the
device-name capture.  The optional GUID group is tried first (greedy `?`),
falling back to the bare quoted form. -/
def headerCapture (line : String) : Option String :=
  match dropLit "Errors for ".data line.data with
  | none => none
  | some r =>
    let withGuid : Option (List Char) :=
      match dropLit "0x".data r with
      | none => none
      | some r1 =>
        match munch1 isHexLower r1 with
        | none => none
        | some (_, r2) =>
          match r2 with
          | ' ' :: r3 => quotedToEnd r3
          | _ => none
    match withGuid with
    | some cap => some (String.mk cap)
    | none => (quotedToEnd r).map String.mk

/-- `re.split(self.ibqueryerrors_header_regex_str, stdout, flags=re.MULTILINE)`
(line 634).  Since the pattern is pinned to whole lines, splitting the text
amounts to classifying each LF-separated line; the segments between matches
keep the newlines that flanked the matched header lines.  Returns the same
interleaved `[segment, capture, segment, …]` list as Python. -/
def splitRuns : List String → List String × List (String × List String)
  | [] => ([], [])
  | l :: rest =>
    let (run, groups) := splitRuns rest
    match headerCapture l with
    | some c => ([], (c, run) :: groups)
    | none => (l :: run, groups)

/-- Join a list of lines with the newlines that `re.split` leaves attached to
the neighbouring segments. -/
def joinNL : List String → String
  | [] => ""
  | [l] => l
  | l :: ls => l ++ "\n" ++ joinNL ls

/-- Rebuild the interleaved segments/captures after the first segment:
every inner segment starts and ends with the newline that surrounded the
matched header line; the final segment only starts with one. -/
def flattenGroups : List (String × List String) → List String
  | [] => []
  | [(c, run)] => [c, joinNL ("" :: run)]
  | (c, run) :: rest => c :: joinNL ("" :: (run ++ [""])) :: flattenGroups rest

/-- The full `re.split` on the report text. -/
def splitReport (s : String) : List String :=
  let (run0, groups) := splitRuns ((splitNL s.data).map String.mk)
  match groups with
  | [] => [joinNL run0]
  | _ => joinNL (run0 ++ [""]) :: flattenGroups groups

/-- Shared head of both uses of `switch_all_ports_pattern`
(`\s*GUID 0[x][\da-f]+ port ALL: `): returns the text after the literal
` port ALL: ` or `none`. -/
def switchAllPortsHead (s : List Char) : Option (List Char) :=
  match dropLit "GUID 0x".data (s.dropWhile pyIsSpace) with
  | none => none
  | some r =>
    match munch1 isHexLower r with
    | none => none
    | some (_, r1) => dropLit " port ALL: ".data r1

/-- `switch_all_ports_pattern.match(data)` (line 655):
`\s*GUID 0[x][\da-f]+ port ALL: (?:\[.*\])+` as a prefix match.  `(?:\[.*\])+`
needs one iteration: a `[` followed by a `]` later on the same line (`.` does
not cross `\n`). -/
def switchAllPortsMatch (s : String) : Bool :=
  match switchAllPortsHead s.data with
  | none => false
  | some r =>
    match r with
    | '[' :: rest => (rest.takeWhile (· ≠ '\n')).contains ']'
    | _ => false

/-- `switch_all_ports_pattern.fullmatch(line)` (line 480) on a single line:
the bracket groups must cover the rest of the line exactly, which (each
iteration starting with `[` and ending with `]`, with greedy `.*` free to
absorb anything between) happens precisely when the rest starts with `[`
and ends with `]`. -/
def switchAllPortsFull (line : String) : Bool :=
  match switchAllPortsHead line.data with
  | none => false
  | some r =>
    match r with
    | '[' :: rest => rest.getLast? = some ']' && rest ≠ []
    | _ => false

/-- `port_pattern.match` (line 239): `\s*GUID (0x.*) port (\d+):(.*)` on a
single line.  The greedy `(0x.*)` makes the engine pick the **last**
occurrence of ` port <digits>:`; groups are returned as
(GUID, port digits, rest-of-line). -/
def portMatch (line : String) : Option (String × String × String) :=
  match dropLit "GUID 0x".data (line.data.dropWhile pyIsSpace) with
  | none => none
  | some t =>
    greedyScan t fun i rest =>
      match dropLit " port ".data rest with
      | none => none
      | some r1 =>
        match munch1 isDigitC r1 with
        | none => none
        | some (ds, r2) =>
          match r2 with
          | ':' :: r3 =>
            some (String.mk ('0' :: 'x' :: t.take i), String.mk ds, String.mk r3)
          | _ => none

/-- `link_pattern.match` (line 240):
`\s*Link info:\s+(\d+)\s+(\d+)\[\s+\] ==\(` as a prefix match.  Every step is
deterministic (each greedy run is followed by a character outside its
class). -/
def linkMatch (line : String) : Bool :=
  (do
    let r ← dropLit "Link info:".data (line.data.dropWhile pyIsSpace)
    let (_, r) ← munch1 pyIsSpace r
    let (_, r) ← munch1 isDigitC r
    let (_, r) ← munch1 pyIsSpace r
    let (_, r) ← munch1 isDigitC r
    let r ← dropLit "[".data r
    let (_, r) ← munch1 pyIsSpace r
    let _ ← dropLit "] ==(".data r
    pure ()).isSome

/-- The named captures of `active_link_pattern`. -/
structure ActiveCaps where
  lid : String
  port : String
  width : String
  speed : String
  remoteGuid : String
  remoteLid : String
  remotePort : String
  nodeName : String
deriving DecidableEq, Repr

/-- `(?P<Speed>[\d+\.]*) Gbps` after the `\s+` following the width: the
greedy `\s+` is tried from its maximal run downwards (the literal ` Gbps`
itself starts with a space, so one space may have to be given back when the
speed capture is empty). -/
def speedGbps (u : List Char) : Option (List Char × List Char) :=
  match munch1 pyIsSpace u with
  | none => none
  | some (sp, _) =>
    let rec go : Nat → Option (List Char × List Char)
      | 0 => none
      | j + 1 =>
        let t := u.drop (j + 1)
        let (spd, t1) := munch isSpeedC t
        match dropLit " Gbps".data t1 with
        | some t2 => some (spd, t2)
        | none => go j
    go sp.length

/-- `\s+(\d+)\s+(\d+)` after the remote GUID (both runs deterministic). -/
def twoNumbers (u : List Char) : Option (List Char × List Char × List Char) :=
  match munch1 pyIsSpace u with
  | none => none
  | some (_, r) =>
    match munch1 isDigitC r with
    | none => none
    | some (d1, r1) =>
      match munch1 pyIsSpace r1 with
      | none => none
      | some (_, r2) =>
        match munch1 isDigitC r2 with
        | none => none
        | some (d2, r3) => some (d1, d2, r3)

/-- Final segment `.*\"(?P<node_name>.*)\"`: the leading greedy `.*` picks the
rightmost quote that still has a later quote after it, and the greedy capture
then runs to the last quote of the line. -/
def nodeNameTail (u : List Char) : Option (List Char) :=
  greedyScan u fun _ rest =>
    match rest with
    | '"' :: after =>
      if after.contains '"' then
        some (after.take (after.length - 1 - (after.reverse.takeWhile (· ≠ '"')).length))
      else none
    | _ => none

/-- `active_link_pattern.match` (line 241):
`\s*Link info:\s+(?P<LID>\d+)\s+(?P<port>\d+).*(?P<Width>\d)X\s+`
`(?P<Speed>[\d+\.]*) Gbps.* Active\/  LinkUp.*(?P<remote_GUID>0x\w+)\s+`
`(?P<remote_LID>\d+)\s+(?P<remote_port>\d+).*\"(?P<node_name>.*)\"`
as a prefix match on a single line.  The four greedy `.*` segments backtrack
from the right, each conditioned on the full remainder of the pattern
succeeding. -/
def activeLinkMatch (line : String) : Option ActiveCaps := do
  let r ← dropLit "Link info:".data (line.data.dropWhile pyIsSpace)
  let (_, r) ← munch1 pyIsSpace r
  let (lid, r) ← munch1 isDigitC r
  let (_, r) ← munch1 pyIsSpace r
  let (port, t) ← munch1 isDigitC r
  greedyScan t fun _ rest =>
    match rest with
    | w :: 'X' :: r1 =>
      if isDigitC w then do
        let (spd, t2) ← speedGbps r1
        greedyScan t2 fun _ rest2 => do
          let t3 ← dropLit " Active/  LinkUp".data rest2
          greedyScan t3 fun _ rest3 => do
            let r4 ← dropLit "0x".data rest3
            let (gw, r5) ← munch1 isWordC r4
            let (rlid, rport, t4) ← twoNumbers r5
            let nn ← nodeNameTail t4
            pure { lid := String.mk lid, port := String.mk port,
                   width := String.mk [w], speed := String.mk spd,
                   remoteGuid := String.mk ('0' :: 'x' :: gw),
                   remoteLid := String.mk rlid, remotePort := String.mk rport,
                   nodeName := String.mk nn }
      else none
    | _ => none

/-- `re.search(r'(\w+) == (\d+).*?', counter)` inside `parse_counter`
(line 251): `re.search` tries a match at every position from the left; at a
position starting a word run the greedy `(\w+)` can only take the maximal
run (a shorter run would leave a word character where the literal ` == `
needs a space), and the trailing lazy `.*?` matches the empty string. -/
def searchCounter : List Char → Option (String × Nat)
  | [] => none
  | c :: rest =>
    if isWordC c then
      let run := c :: rest.takeWhile isWordC
      let rem := rest.dropWhile isWordC
      match (do
        let r1 ← dropLit " == ".data rem
        munch1 isDigitC r1) with
      | some (ds, _) => some (String.mk run, natOfDigits ds)
      | none => searchCounter rest
    else searchCounter rest

/-- `re.findall(r'\[(.*?)\]', s)` (line 250): non-overlapping bracketed
chunks, each running from a `[` to the *next* `]`, never across a newline
(`.` does not match `\n`; an unclosed `[` before a newline yields nothing
for that stretch). -/
def findBracketsGo : List Char → Option (List Char) → List (List Char)
  | [], _ => []
  | c :: rest, none =>
    if c = '[' then findBracketsGo rest (some []) else findBracketsGo rest none
  | c :: rest, some acc =>
    if c = ']' then acc.reverse :: findBracketsGo rest none
    else if c = '\n' then findBracketsGo rest none
    else findBracketsGo rest (some (c :: acc))

/-- Insert with Python `dict` semantics: an existing key keeps its position
and gets the new value, a new key is appended. -/
def dictInsert (k : String) (v : Nat) : List (String × Nat) → List (String × Nat)
  | [] => [(k, v)]
  | (k', v') :: rest =>
    if k' = k then (k', v) :: rest else (k', v') :: dictInsert k v rest

/-- `InfinibandCollector.parse_counter` (lines 247-254): collect the
`name == value` pairs of the bracketed groups of a port line into an
insertion-ordered mapping. -/
def parse_counter (s : String) : List (String × Nat) :=
  (findBracketsGo s.data none).foldl
    (fun counters chunk =>
      match searchCounter chunk with
      | some (name, v) => dictInsert name v counters
      | none => counters)
    []

/-! ## The stderr classifier's patterns (`__init__`, lines 202-233) -/

/-- `bad_status_error_prog.match` (line 205):
`src\/query\_smp\.c\:[\d]+\; (?:mad|umad) \((DR path .*) Attr .*\) bad status ([\d]+); (.*)`
returning the labels `[path, status, error]` (groups 1-3).  The alternation
branches start with different characters, so trying them in order needs no
shared continuation. -/
def bad_status_capture (line : String) : Option (List String) := do
  let r ← dropLit "src/query_smp.c:".data line.data
  let (_, r1) ← munch1 isDigitC r
  let r2 ← dropLit "; ".data r1
  let r3 ← dropLit "mad (DR path ".data r2 <|> dropLit "umad (DR path ".data r2
  greedyScan r3 fun i rest => do
    let u ← dropLit " Attr ".data rest
    greedyScan u fun _ rest2 => do
      let v ← dropLit ") bad status ".data rest2
      let (st, v1) ← munch1 isDigitC v
      let v2 ← dropLit "; ".data v1
      pure [String.mk ("DR path ".data ++ r3.take i), String.mk st, String.mk v2]

/-- `query_failed_error_prog.match` (line 211):
`ibwarn: \[\d+\] query_and_dump: (\w+) query failed on (.*), Lid (\d+) port (\d+)`
returning `[counter_name, local_name, lid, port]`. -/
def query_failed_capture (line : String) : Option (List String) := do
  let r ← dropLit "ibwarn: [".data line.data
  let (_, r1) ← munch1 isDigitC r
  let r2 ← dropLit "] query_and_dump: ".data r1
  let (w, r3) ← munch1 isWordC r2
  let r4 ← dropLit " query failed on ".data r3
  greedyScan r4 fun i rest => do
    let u ← dropLit ", Lid ".data rest
    let (d1, u1) ← munch1 isDigitC u
    let u2 ← dropLit " port ".data u1
    let (d2, _) ← munch1 isDigitC u2
    pure [String.mk w, String.mk (r4.take i), String.mk d1, String.mk d2]

/-- `mad_rpc_recv_failed_prog.match` (line 214):
`ibwarn: \[\d+\] _do_madrpc: recv failed: [\w\s]+`; a match is silently
ignored, so only success matters. -/
def mad_rpc_recv_failed_match (line : String) : Bool :=
  (do
    let r ← dropLit "ibwarn: [".data line.data
    let (_, r1) ← munch1 isDigitC r
    let r2 ← dropLit "] _do_madrpc: recv failed: ".data r1
    let _ ← munch1 isWordSpace r2
    pure ()).isSome

/-- `mad_rpc_failed_error_prog.match` (line 220):
`ibwarn: \[\d+\] mad_rpc: _do_madrpc failed; dport \(([\w;\s]+)\)`
returning `[portid]`.  The class excludes `)`, so its greedy run is
deterministic. -/
def mad_rpc_failed_capture (line : String) : Option (List String) := do
  let r ← dropLit "ibwarn: [".data line.data
  let (_, r1) ← munch1 isDigitC r
  let r2 ← dropLit "] mad_rpc: _do_madrpc failed; dport (".data r1
  let (run, r3) ← munch1 isWordSemiSpace r2
  match r3 with
  | ')' :: _ => pure [String.mk run]
  | _ => none

/-- Backtracking for `([\w;\s]+) port (\d+)`: the class also covers
` port <digits>`, so the greedy run is tried from its maximal length
downwards until ` port ` and a digit follow. -/
def clsPortScan (u : List Char) : Nat → Option (List Char × List Char)
  | 0 => none
  | j + 1 =>
    match (do
      let v ← dropLit " port ".data (u.drop (j + 1))
      munch1 isDigitC v) with
    | some (ds, _) => some (u.take (j + 1), ds)
    | none => clsPortScan u j

/-- Common shape of `query_cap_mask_error_prog` (line 226) and
`print_error_prog` (line 232):
`ibwarn: \[\d+\] <tag>(\w+) query failed on (.*), ([\w;\s]+) port (\d+)`
returning `[counter_name, local_name, portid, port]`. -/
def capMaskShape (tag : String) (line : String) : Option (List String) := do
  let r ← dropLit "ibwarn: [".data line.data
  let (_, r1) ← munch1 isDigitC r
  let r2 ← dropLit tag.data r1
  let (w, r3) ← munch1 isWordC r2
  let r4 ← dropLit " query failed on ".data r3
  greedyScan r4 fun i rest => do
    let u ← dropLit ", ".data rest
    let (clsmax, _) := munch isWordSemiSpace u
    let (cls, ds) ← clsPortScan u clsmax.length
    pure [String.mk w, String.mk (r4.take i), String.mk cls, String.mk ds]

/-- `query_cap_mask_error_prog.match` (line 226). -/
def query_cap_mask_capture (line : String) : Option (List String) :=
  capMaskShape "] query_cap_mask: " line

/-- `print_error_prog.match` (line 232). -/
def print_error_capture (line : String) : Option (List String) :=
  capMaskShape "] print_errors: " line

/-! ## The Counter Catalog (`self.counter_info`, lines 44-192, and
`self.gauge_info`, lines 193-200) -/

/-- One entry of `self.counter_info`: description, severity class and bit
width. -/
structure CounterDesc where
  help : String
  severity : String
  bits : Nat
deriving DecidableEq, Repr

/-- `self.counter_info`, in the source's insertion order. -/
def counter_info : List (String × CounterDesc) :=
  [("LinkDownedCounter",
    ⟨"Total number of times the Port Training state machine has failed the link error recovery process and downed the link.",
     "Error", 8⟩),
   ("SymbolErrorCounter",
    ⟨"Total number of minor link errors detected on one or more physical lanes.",
     "Error", 16⟩),
   ("PortXmitDiscards",
    ⟨"Total number of outbound packets discarded by the port because the port is down or congested.",
     "Error", 16⟩),
   ("PortSwHOQLifetimeLimitDiscards",
    ⟨"The number of packets dropped by running in a head-of-Queue timeoutoften caused by congestions, possibly by credit Loops.",
     "Error", 16⟩),
   ("PortXmitWait",
    ⟨"The number of ticks during which the port had data to transmit but no data was sent during the entire tick (either because of insufficient credits or because of lack of arbitration).",
     "Informative", 32⟩),
   ("PortXmitData",
    ⟨"Total number of data octets, divided by 4 (lanes), transmitted on all VLs.",
     "Informative", 64⟩),
   ("PortRcvData",
    ⟨"Total number of data octets, divided by 4 (lanes), received on all VLs.",
     "Informative", 64⟩),
   ("PortXmitPkts",
    ⟨"Total number of packets transmitted on all VLs from this port. This may include packets with errors.",
     "Informative", 64⟩),
   ("PortRcvPkts",
    ⟨"Total number of packets received. This may include packets containing errors.",
     "Informative", 64⟩),
   ("PortRcvErrors",
    ⟨"Total number of packets containing an error that were received on the port.",
     "Informative", 16⟩),
   ("PortUnicastXmitPkts",
    ⟨"Total number of unicast packets transmitted on all VLs from the port. This may include unicast packets with errors.",
     "Informative", 64⟩),
   ("PortUnicastRcvPkts",
    ⟨"Total number of unicast packets, including unicast packets containing errors.",
     "Informative", 64⟩),
   ("PortMulticastXmitPkts",
    ⟨"Total number of multicast packets transmitted on all VLs from the port. This may include multicast packets with errors.",
     "Informative", 64⟩),
   ("PortMulticastRcvPkts",
    ⟨"Total number of multicast packets, including multicast packets containing errors.",
     "Informative", 64⟩),
   ("PortBufferOverrunErrors",
    ⟨"Total number of packets received on the part discarded due to buffer overrrun.",
     "Error", 16⟩),
   ("PortLocalPhysicalErrors",
    ⟨"Total number of packets received with physical error like CRC error.",
     "Error", 16⟩),
   ("PortRcvRemotePhysicalErrors",
    ⟨"Total number of packets marked with the EBP delimiter received on the port.",
     "Error", 16⟩),
   ("PortInactiveDiscards",
    ⟨"Total number of packets discarded due to the port being in the inactive state.",
     "Error", 16⟩),
   ("PortDLIDMappingErrors",
    ⟨"Total number of packets on the port that could not be forwared by the switch due to DLID mapping errors.",
     "Error", 16⟩),
   ("LinkErrorRecoveryCounter",
    ⟨"Total number of times the Port Training state machine has successfully completed the link error recovery process.",
     "Error", 8⟩),
   ("LocalLinkIntegrityErrors",
    ⟨"The number of times that the count of local physical errors exceeded the threshold specified by LocalPhyErrors.",
     "Error", 4⟩),
   ("VL15Dropped",
    ⟨"The number of incoming VL15 packets dropped due to resource limitations (for example, lack of buffers) in the port.",
     "Error", 16⟩),
   ("PortNeighborMTUDiscards",
    ⟨"Total outbound packets discarded by the port because packet length exceeded the neighbor MTU.",
     "Error", 16⟩)]

/-- `self.gauge_info`, in the source's insertion order. -/
def gauge_info : List (String × String) :=
  [("Speed", "Link current speed per lane."),
   ("Width", "Lanes per link.")]

/-- First-match association lookup (Python `dict` access / `in`). -/
def lookupAssoc {β : Type} (k : String) : List (String × β) → Option β
  | [] => none
  | (k', v) :: rest => if k' = k then some v else lookupAssoc k rest

/-- `self.counter_info[counter]['bits']` (line 559): `none` models the
`KeyError` for a counter absent from the catalog. -/
def counterBits (counter : String) : Option Nat :=
  (lookupAssoc counter counter_info).map (·.bits)

/-! ## Metric families and collector state -/

/-- A metric sample value.  Counter samples carry the parsed integer, gauge
samples carry the regex capture string the source passes to `add_metric`
unconverted, and the timing meta-metrics carry a wall-clock duration the
embedding leaves abstract. -/
inductive MVal where
  | int (n : Nat)
  | txt (s : String)
  | duration
deriving DecidableEq, Repr

/-- A `CounterMetricFamily` / `GaugeMetricFamily` with its accumulated
samples. -/
structure Family where
  name : String
  help : String
  labels : List String
  isCounter : Bool
  samples : List (List String × MVal)
deriving DecidableEq, Repr

/-- The fixed label set of the device/port families (lines 426-434,
440-448). -/
def deviceLabels : List String :=
  ["component", "local_name", "local_guid", "local_port",
   "remote_guid", "remote_port", "remote_name"]

/-- `InfinibandCollector.init_metrics` (lines 420-448): one fresh, empty
family per gauge and per counter, keyed by the catalog name, gauges
inserted first. -/
def init_metrics : List (String × Family) :=
  gauge_info.map (fun (g, h) =>
    (g, ⟨"infiniband_" ++ pyLower g, h, deviceLabels, false, []⟩))
  ++ counter_info.map (fun (c, d) =>
    (c, ⟨"infiniband_" ++ pyLower c, d.help, deviceLabels, true, []⟩))

/-- `self.metrics[key].add_metric(labels, value)`: append a sample to the
family stored under `key`; `none` models the `KeyError` when the key is
absent. -/
def addSample (key : String) (ls : List String) (v : MVal) :
    List (String × Family) → Option (List (String × Family))
  | [] => none
  | (k, fam) :: rest =>
    if k = key then
      some ((k, { fam with samples := fam.samples ++ [(ls, v)] }) :: rest)
    else
      (addSample key ls v rest).map ((k, fam) :: ·)

/-- Collector configuration fixed at startup: the `--can-reset-counter`
flag and the Name Resolver mapping `self.node_name` (loaded once from the
node-name-map file, lines 31-37). -/
structure Config where
  canResetCounter : Bool
  nodeName : List (String × String)
deriving DecidableEq, Repr

/-- The collector's mutable per-cycle state: `self.metrics` and
`self.scrape_with_errors`. -/
structure CState where
  metrics : List (String × Family)
  scrapeWithErrors : Bool
deriving DecidableEq, Repr

/-- Externally observable side effects of a cycle: `reset_counter`
invocations, the `perfquery -R -G guid port` subprocesses launched, the
info/warning log lines of `reset_counter` (which carry the resolved switch
name), and the `Missing description for counter metric` error logs. -/
structure Effects where
  resetCalls : List (String × String × String)
  resets : List (String × String)
  infoLogs : List (String × String × String)
  warnLogs : List (String × String × String)
  missingLogs : List String
deriving DecidableEq, Repr

/-- No effects yet. -/
def noEffects : Effects := ⟨[], [], [], [], []⟩

/-- `InfinibandCollector.reset_counter` (lines 256-274): resolve the switch
name through the Name Resolver (raw GUID fallback), then either launch
`perfquery -R -G guid port` and log at info level (when resets are
enabled) or only log a warning.  `resetCalls` records the invocation
itself. -/
def reset_counter (cfg : Config) (eff : Effects) (guid port reason : String) :
    Effects :=
  let switchName := (lookupAssoc guid cfg.nodeName).getD guid
  let eff := { eff with resetCalls := eff.resetCalls ++ [(guid, port, reason)] }
  if cfg.canResetCounter then
    { eff with
      infoLogs := eff.infoLogs ++ [(switchName, port, reason)],
      resets := eff.resets ++ [(guid, port)] }
  else
    { eff with warnLogs := eff.warnLogs ++ [(switchName, port, reason)] }

/-! ## `parse_item` (lines 526-563) -/

/-- The `InfinibandItem` enum (lines 21-23). -/
inductive InfinibandItem where
  | ca
  | switch
deriving DecidableEq, Repr

/-- `InfinibandItem.value`: the string payload of the enum. -/
def InfinibandItem.value : InfinibandItem → String
  | .ca => "ca"
  | .switch => "switch"

/-- The `label_values` list built identically in both loops of `parse_item`
(lines 534-541 and 547-554). -/
def labelValuesOf (component : InfinibandItem) (name guid port : String)
    (caps : ActiveCaps) : List String :=
  [component.value, name, guid, port,
   caps.remoteGuid, caps.remotePort, caps.nodeName]

/-- `match_link.group(gauge)` for the two gauge names; `none` models the
error a name without a capture group would raise. -/
def capsGroup (caps : ActiveCaps) (g : String) : Option String :=
  if g = "Speed" then some caps.speed
  else if g = "Width" then some caps.width
  else none

/-- The gauge loop of `parse_item` (lines 532-543): add one sample per gauge
with the regex capture as its (string) value.  `none` models the uncaught
`KeyError`/group error that a state missing a gauge family would raise
(unreachable after `init_metrics`). -/
def gaugesAdd (st : CState) (component : InfinibandItem)
    (name guid port : String) (caps : ActiveCaps) : Option CState :=
  gauge_info.foldl
    (fun acc (g, _) => do
      let st ← acc
      let v ← capsGroup caps g
      let m ← addSample g (labelValuesOf component name guid port caps) (.txt v) st.metrics
      pure { st with metrics := m })
    (some st)

/-- One iteration of the counter loop of `parse_item` (lines 545-563).  The
`try` block looks the family up (`self.metrics[counter]` — a missing key
raises `KeyError` before anything is added), appends the sample, then reads
the bit width (`self.counter_info[counter]['bits']` — a second `KeyError`
point, reached after the sample was already added) and applies the
threshold `value >= 2 ** (bits - 1)`; the `except KeyError` arm sets
`scrape_with_errors` and logs the counter name. -/
def processOneCounter (cfg : Config) (st : CState) (eff : Effects)
    (component : InfinibandItem) (name guid port : String) (caps : ActiveCaps)
    (counter : String) (v : Nat) : CState × Effects :=
  match lookupAssoc counter st.metrics with
  | none =>
    ({ st with scrapeWithErrors := true },
     { eff with missingLogs := eff.missingLogs ++ [counter] })
  | some _ =>
    let st' :=
      { st with metrics :=
          (addSample counter (labelValuesOf component name guid port caps)
            (.int v) st.metrics).getD st.metrics }
    match counterBits counter with
    | none =>
      ({ st' with scrapeWithErrors := true },
       { eff with missingLogs := eff.missingLogs ++ [counter] })
    | some bits =>
      if v ≥ 2 ^ (bits - 1) then (st', reset_counter cfg eff guid port counter)
      else (st', eff)

/-- The counter loop of `parse_item` (lines 545-563), iterating the parsed
mapping in insertion order. -/
def processCounters (cfg : Config) (component : InfinibandItem)
    (name guid port : String) (caps : ActiveCaps) :
    CState × Effects → List (String × Nat) → CState × Effects
  | acc, [] => acc
  | (st, eff), (c, v) :: rest =>
    processCounters cfg component name guid port caps
      (processOneCounter cfg st eff component name guid port caps c v) rest

/-- `InfinibandCollector.parse_item` (lines 526-563): parse the counters
from group 3 of the port match, add the gauge samples, then run the counter
loop.  `none` models an uncaught exception (gauge family missing). -/
def parse_item (cfg : Config) (st : CState) (eff : Effects)
    (component : InfinibandItem) (name guid port counterText : String)
    (caps : ActiveCaps) : Option (CState × Effects) := do
  let counters := parse_counter counterText
  let st1 ← gaugesAdd st component name guid port caps
  pure (processCounters cfg component name guid port caps (st1, eff) counters)

/-! ## `process_item` (lines 450-524) and the collection cycle -/

/-- The `ParsingError` raise sites, by kind. -/
inductive PErrKind where
  | itemIncomplete
  | noAllPorts
  | noLinkInfo
  | inconsistentPair
  | inconsistentSingle
  | inconsistentLeading
  | emptyContent
deriving DecidableEq, Repr

/-- The outcome of a parsing stage: normal return, a raised `ParsingError`
(caught by `collect`), or an uncaught exception such as an `IndexError`
(never caught; all such sites are unreachable from well-typed calls). -/
inductive RunRes where
  | ok (st : CState) (eff : Effects)
  | perr (k : PErrKind) (st : CState) (eff : Effects)
  | crash
deriving DecidableEq, Repr

/-- `self.chunks(x, 2)` (lines 243-245): consecutive slices of length 2,
with a final singleton when the length is odd. -/
def chunks2 {α : Type} : List α → List (List α)
  | [] => []
  | [a] => [[a]]
  | a :: b :: rest => [a, b] :: chunks2 rest

/-- Python `int(match_port.group(2)) > 0` — the group is a digit run. -/
def portNumOf (s : String) : Nat := natOfDigits s.data

/-- One iteration of the port-pair loop of `process_item` (lines 487-524).
A matched port line with port number `> 0` requires the generic link-info
shape (`ParsingError` otherwise) and produces an observation only when the
active pattern also matches; a pair whose port line is empty or contains
`##` must have a link line of the same shape; a trailing singleton must
contain `##`. -/
def processItemPair (cfg : Config) (st : CState) (eff : Effects)
    (component : InfinibandItem) (name : String) : List String → RunRes
  | [portItem, linkItem] =>
    match portMatch portItem with
    | some (guid, port, rest) =>
      if portNumOf port > 0 then
        if linkMatch linkItem then
          match activeLinkMatch linkItem with
          | some caps =>
            match parse_item cfg st eff component name guid port rest caps with
            | some (st', eff') => .ok st' eff'
            | none => .crash
          | none => .ok st eff
        else .perr .noLinkInfo st eff
      else .ok st eff
    | none =>
      if portItem = "" || hasSub "##".data portItem.data then
        if !(linkItem = "" || hasSub "##".data linkItem.data) then
          .perr .inconsistentPair st eff
        else .ok st eff
      else .perr .inconsistentPair st eff
  | [single] =>
    if !(hasSub "##".data single.data) then .perr .inconsistentSingle st eff
    else .ok st eff
  | _ => .crash

/-- The pair loop of `process_item`: fold `processItemPair` over the
2-chunks, propagating a raised error immediately. -/
def runPairs (cfg : Config) (component : InfinibandItem) (name : String) :
    CState × Effects → List (List String) → RunRes
  | (st, eff), [] => .ok st eff
  | (st, eff), pair :: rest =>
    match processItemPair cfg st eff component name pair with
    | .ok st' eff' => runPairs cfg component name (st', eff') rest
    | r => r

/-- `InfinibandCollector.process_item` (lines 450-524).  The length check
raises `ParsingError` for a chunk that is not a (name, data) pair (an empty
chunk crashes formatting the message first); a switch body must start with
a full-line all-ports marker, which is dropped. -/
def process_item (cfg : Config) (st : CState) (eff : Effects)
    (component : InfinibandItem) (item : List String) : RunRes :=
  match item with
  | [] => .crash
  | [_] => .perr .itemIncomplete st eff
  | name :: data :: extra =>
    if extra ≠ [] then .perr .itemIncomplete st eff
    else
      let itemLines := pySplitlines (pyLstrip data)
      match component with
      | .switch =>
        match itemLines with
        | [] => .crash
        | l0 :: restLines =>
          if switchAllPortsFull l0 then
            runPairs cfg component name (st, eff) (chunks2 restLines)
          else .perr .noAllPorts st eff
      | .ca => runPairs cfg component name (st, eff) (chunks2 itemLines)

/-- The device loop of `collect` (lines 651-660): classify each (name, body)
chunk as switch or CA by prefix-matching the all-ports pattern on the body
(`data_chunk[1]`; a missing element is an uncaught `IndexError`). -/
def runDevices (cfg : Config) :
    CState × Effects → List (List String) → RunRes
  | (st, eff), [] => .ok st eff
  | (st, eff), chunk :: rest =>
    match chunk.get? 1 with
    | none => .crash
    | some data =>
      let component : InfinibandItem :=
        if switchAllPortsMatch data then .switch else .ca
      match process_item cfg st eff component chunk with
      | .ok st' eff' => runDevices cfg (st', eff') rest
      | r => r

/-- The body of the `try` block of `collect` (lines 637-660): the emptiness
and leading-segment checks on the split content, then the device loop. -/
def runContent (cfg : Config) (st : CState) (eff : Effects)
    (content : List String) : RunRes :=
  match content with
  | [] => .perr .emptyContent st eff
  | c0 :: rest =>
    if c0 = "" then runDevices cfg (st, eff) (chunks2 rest)
    else .perr .inconsistentLeading st eff

/-- The scrape-duration meta-family (lines 575-577). -/
def scrapeDurationFam : Family :=
  ⟨"infiniband_scrape_duration_seconds",
   "Number of seconds taken to collect and parse the stats.", [], false,
   [([], .duration)]⟩

/-- The scrape-ok meta-family (lines 579-583, 674-678) with its 0/1 value. -/
def scrapeOkFam (v : Nat) : Family :=
  ⟨"infiniband_scrape_ok",
   "Indicates with a 1 if the scrape was successful and complete, otherwise 0 on any non critical errors detected e.g. ignored lines from ibqueryerrors STDERR or parsing errors.",
   [], false, [([], .int v)]⟩

/-- What one cycle emits: the metric families in yield order, plus the
cycle's side effects. -/
structure CycleOut where
  families : List Family
  effects : Effects
deriving DecidableEq, Repr

/-- Marker for an uncaught exception escaping `collect`. -/
inductive Crash where
  | crash
deriving DecidableEq, Repr

/-- `InfinibandCollector.collect` (lines 566-680) for a collector reading a
fixture file (`--from-file`), whose content is `input`; the live branch
additionally runs `ibqueryerrors` and classifies its stderr, which a
fixture run skips entirely.  The incoming state is overwritten up front
(`self.scrape_with_errors = False`, line 570; `self.init_metrics()`, line
585).  On a `ParsingError` the device/port families are not yielded, the
error is logged, and the degraded flag is set; the duration and scrape-ok
meta-families are always yielded last. -/
def collect (cfg : Config) (_st : CState) (input : String) :
    Except Crash (CState × CycleOut) :=
  let st0 : CState := { metrics := init_metrics, scrapeWithErrors := false }
  let content := splitReport input
  match runContent cfg st0 noEffects content with
  | .ok st1 eff =>
    let deviceFams :=
      counter_info.filterMap (fun (c, _) => lookupAssoc c st1.metrics)
      ++ gauge_info.filterMap (fun (g, _) => lookupAssoc g st1.metrics)
    .ok (st1,
      ⟨deviceFams ++ [scrapeDurationFam,
          scrapeOkFam (if st1.scrapeWithErrors then 0 else 1)], eff⟩)
  | .perr _ st1 eff =>
    .ok ({ st1 with scrapeWithErrors := true },
      ⟨[scrapeDurationFam, scrapeOkFam 0], eff⟩)
  | .crash => .error .crash

/-- The `ParsingError` kind of a parsing stage, if one was raised. -/
def perrKindOf : RunRes → Option PErrKind
  | .perr k _ _ => some k
  | _ => none

/-- The families a `collect` result emits (none when it crashed). -/
def famsOf (r : Except Crash (CState × CycleOut)) : List Family :=
  match r with
  | .ok (_, out) => out.families
  | .error _ => []

/-- The final collector state of a `collect` result, with a fallback for a
crashed run. -/
def stateOf (r : Except Crash (CState × CycleOut)) (fallback : CState) : CState :=
  match r with
  | .ok (st, _) => st
  | .error _ => fallback

/-- Whether a `collect` result returned normally. -/
def isOkRun (r : Except Crash (CState × CycleOut)) : Bool :=
  match r with
  | .ok _ => true
  | .error _ => false

/-- The timing meta-families, excluded by the idempotence property. -/
def isTimingFam (f : Family) : Bool :=
  f.name = "infiniband_scrape_duration_seconds"
  || f.name = "infiniband_ibqueryerrors_duration_seconds"

/-! ## `build_stderr_metrics` (lines 276-333) -/

/-- The classification of one stderr line by the `if/elif` cascade of
`build_stderr_metrics` (lines 316-331), in the source's priority order:
bad-status, query-failed, mad-rpc-recv-failed (matched but ignored),
mad-rpc-failed, query-cap-mask, print-error, otherwise unmatched.  The
first match wins. -/
inductive StderrClass where
  | badStatus (ls : List String)
  | queryFailed (ls : List String)
  | recvIgnored
  | madRpc (ls : List String)
  | capMask (ls : List String)
  | printErr (ls : List String)
  | unmatched
deriving DecidableEq, Repr

/-- The cascade itself. -/
def classifyStderrLine (line : String) : StderrClass :=
  match bad_status_capture line with
  | some ls => .badStatus ls
  | none =>
    match query_failed_capture line with
    | some ls => .queryFailed ls
    | none =>
      if mad_rpc_recv_failed_match line then .recvIgnored
      else
        match mad_rpc_failed_capture line with
        | some ls => .madRpc ls
        | none =>
          match query_cap_mask_capture line with
          | some ls => .capMask ls
          | none =>
            match print_error_capture line with
            | some ls => .printErr ls
            | none => .unmatched

/-- The running tallies of `build_stderr_metrics`: one sample list per
pattern family, plus the `error` flag set by an unmatched line. -/
structure StderrAcc where
  bad : List (List String × MVal)
  qf : List (List String × MVal)
  mad : List (List String × MVal)
  cap : List (List String × MVal)
  pr : List (List String × MVal)
  error : Bool
deriving DecidableEq, Repr

/-- Dispatch one stderr line into the accumulator (`add_metric(labels, 1)`
on the matched family, or set the error flag). -/
def stderrStep (acc : StderrAcc) (line : String) : StderrAcc :=
  match classifyStderrLine line with
  | .badStatus ls => { acc with bad := acc.bad ++ [(ls, .int 1)] }
  | .queryFailed ls => { acc with qf := acc.qf ++ [(ls, .int 1)] }
  | .recvIgnored => acc
  | .madRpc ls => { acc with mad := acc.mad ++ [(ls, .int 1)] }
  | .capMask ls => { acc with cap := acc.cap ++ [(ls, .int 1)] }
  | .printErr ls => { acc with pr := acc.pr ++ [(ls, .int 1)] }
  | .unmatched => { acc with error := true }

/-- `InfinibandCollector.build_stderr_metrics` (lines 276-333): fold the
cascade over `stderr.splitlines()` and return the five families (in the
`stderr_metrics` list order of lines 304-309) together with the error
flag. -/
def build_stderr_metrics (stderr : String) : List Family × Bool :=
  let acc := (pySplitlines stderr).foldl stderrStep ⟨[], [], [], [], [], false⟩
  ([⟨"infiniband_bad_status_error",
     "Bad status error catched from STDERR by ibqueryerrors.",
     ["path", "status", "error"], false, acc.bad⟩,
    ⟨"infiniband_query_failed_error",
     "Failed query catched from STDERR by ibqueryerrors.",
     ["counter_name", "local_name", "lid", "port"], false, acc.qf⟩,
    ⟨"infiniband_mad_rpc_failed_error",
     "ibwarn_mad_rpc error catched from STDERR by ibqueryerrors.",
     ["portid"], false, acc.mad⟩,
    ⟨"infiniband_query_cap_mask_error",
     "ibwarn_query_cap_mask error catched from STDERR by ibqueryerrors.",
     ["counter_name", "local_name", "portid", "port"], false, acc.cap⟩,
    ⟨"infiniband_print_error",
     "ibwarn_print_error catched from STDERR by ibqueryerrors.",
     ["counter_name", "local_name", "portid", "port"], false, acc.pr⟩],
   acc.error)

/-- The labels a line contributes to the bad-status family, if any. -/
def badStatusOf (line : String) : Option (List String) :=
  match classifyStderrLine line with
  | .badStatus ls => some ls
  | _ => none

/-- The labels a line contributes to the query-failed family, if any. -/
def queryFailedOf (line : String) : Option (List String) :=
  match classifyStderrLine line with
  | .queryFailed ls => some ls
  | _ => none

/-- The labels a line contributes to the mad-rpc-failed family, if any. -/
def madRpcOf (line : String) : Option (List String) :=
  match classifyStderrLine line with
  | .madRpc ls => some ls
  | _ => none

/-- The labels a line contributes to the query-cap-mask family, if any. -/
def capMaskOf (line : String) : Option (List String) :=
  match classifyStderrLine line with
  | .capMask ls => some ls
  | _ => none

/-- The labels a line contributes to the print-error family, if any. -/
def printErrOf (line : String) : Option (List String) :=
  match classifyStderrLine line with
  | .printErr ls => some ls
  | _ => none

/-- Concrete active-link captures used by the concrete-input theorems. -/
def sampleCaps : ActiveCaps :=
  ⟨"3", "1", "4", "25.78125", "0x2", "4", "1", "node2"⟩

/-- Whether the cascade leaves a line unmatched. -/
def isUnmatchedLine (l : String) : Bool :=
  match classifyStderrLine l with
  | .unmatched => true
  | _ => false

/-- A port line as printed by `ibqueryerrors`. -/
def samplePortLine : String := "GUID 0x1 port 1:[PortXmitData == 5]"

/-- A link-info line whose state is `Polling` — neither `Active` nor
`Down`. -/
def pollingLine : String :=
  "      Link info:       3    1[  ] ==( 4X 5.0 Gbps Polling/ LinkUp)==>  0x2      4    1[  ] \"n2\""

/-- A link-info line whose state is `Active`. -/
def activeLine : String :=
  "      Link info:       3    1[  ] ==( 4X 25.78125 Gbps Active/  LinkUp)==>  0x2      4    1[  ] \"node2\""

/-- A stderr line matched (and ignored) by the recv-failed pattern. -/
def recvLine : String :=
  "ibwarn: [4242] _do_madrpc: recv failed: Connection timed out"

/-! ## Helper lemmas -/

/-- A successful family lookup makes `add_metric` succeed and append the
sample to that family. -/
theorem addSample_of_lookup {m : List (String × Family)} {k : String}
    {fam : Family} (h : lookupAssoc k m = some fam) (ls : List String)
    (v : MVal) :
    ∃ m', addSample k ls v m = some m' ∧
      lookupAssoc k m' = some { fam with samples := fam.samples ++ [(ls, v)] } := by
  induction m with
  | nil => simp [lookupAssoc] at h
  | cons p rest ih =>
    obtain ⟨k', fam'⟩ := p
    by_cases hk : k' = k
    · subst hk
      simp only [lookupAssoc, if_pos rfl] at h
      cases h
      refine ⟨(k', { fam with samples := fam.samples ++ [(ls, v)] }) :: rest,
        ?_, ?_⟩
      · simp [addSample]
      · simp [lookupAssoc]
    · simp only [lookupAssoc, if_neg hk] at h
      obtain ⟨m', hm, hl⟩ := ih h
      exact ⟨(k', fam') :: m', by simp [addSample, hk, hm],
             by simp [lookupAssoc, hk, hl]⟩

/-- Characterization of one counter iteration when the counter is known to
both the metric table and the catalog: the sample is appended first, then
the threshold decides whether `reset_counter` runs. -/
theorem processOneCounter_known (cfg : Config) (st : CState) (eff : Effects)
    (comp : InfinibandItem) (name guid port : String) (caps : ActiveCaps)
    (c : String) (v b : Nat) (fam : Family)
    (hfam : lookupAssoc c st.metrics = some fam)
    (hb : counterBits c = some b) :
    ∃ m', addSample c (labelValuesOf comp name guid port caps) (.int v)
            st.metrics = some m' ∧
      lookupAssoc c m' =
        some { fam with samples :=
          fam.samples ++ [(labelValuesOf comp name guid port caps, .int v)] } ∧
      processOneCounter cfg st eff comp name guid port caps c v =
        ({ st with metrics := m' },
         if v ≥ 2 ^ (b - 1) then reset_counter cfg eff guid port c else eff) := by
  obtain ⟨m', hm, hl⟩ :=
    addSample_of_lookup hfam (labelValuesOf comp name guid port caps) (.int v)
  refine ⟨m', hm, hl, ?_⟩
  simp only [processOneCounter, hfam, hb, hm, Option.getD_some]
  by_cases h : v ≥ 2 ^ (b - 1) <;> simp [h]

/-- The state component of one counter iteration does not depend on the
configuration or the accumulated effects. -/
theorem processOneCounter_state_blind (cfg cfg' : Config) (st : CState)
    (eff eff' : Effects) (comp : InfinibandItem) (name guid port : String)
    (caps : ActiveCaps) (c : String) (v : Nat) :
    (processOneCounter cfg st eff comp name guid port caps c v).1 =
      (processOneCounter cfg' st eff' comp name guid port caps c v).1 := by
  simp only [processOneCounter]
  cases lookupAssoc c st.metrics with
  | none => rfl
  | some fam =>
    cases counterBits c with
    | none => rfl
    | some b => by_cases h : v ≥ 2 ^ (b - 1) <;> simp [h]

/-- The state component of the counter loop does not depend on the
configuration or the accumulated effects. -/
theorem processCounters_state_blind (cfg cfg' : Config) (st : CState)
    (eff eff' : Effects) (comp : InfinibandItem) (name guid port : String)
    (caps : ActiveCaps) (cs : List (String × Nat)) :
    (processCounters cfg comp name guid port caps (st, eff) cs).1 =
      (processCounters cfg' comp name guid port caps (st, eff') cs).1 := by
  induction cs generalizing st eff eff' with
  | nil => rfl
  | cons p rest ih =>
    obtain ⟨c, v⟩ := p
    simp only [processCounters]
    have h1 := processOneCounter_state_blind cfg cfg' st eff eff' comp name
      guid port caps c v
    rcases hx : processOneCounter cfg st eff comp name guid port caps c v
      with ⟨stx, effx⟩
    rcases hy : processOneCounter cfg' st eff' comp name guid port caps c v
      with ⟨sty, effy⟩
    rw [hx, hy] at h1
    simp only at h1
    subst h1
    exact ih stx effx effy

/-- `collect` overwrites the carried state before using it, so its result is
independent of that state. -/
theorem collect_state_blind (cfg : Config) (st st' : CState) (s : String) :
    collect cfg st s = collect cfg st' s := rfl

/-- Folding the stderr cascade over a line list appends, per family, exactly
the label tuples of the lines classified into it, and turns the error flag
on as soon as some line is unmatched. -/
theorem stderr_fold_char (lines : List String) (acc : StderrAcc) :
    lines.foldl stderrStep acc =
      ⟨acc.bad ++ lines.filterMap (fun l => (badStatusOf l).map ((·, MVal.int 1))),
       acc.qf ++ lines.filterMap (fun l => (queryFailedOf l).map ((·, MVal.int 1))),
       acc.mad ++ lines.filterMap (fun l => (madRpcOf l).map ((·, MVal.int 1))),
       acc.cap ++ lines.filterMap (fun l => (capMaskOf l).map ((·, MVal.int 1))),
       acc.pr ++ lines.filterMap (fun l => (printErrOf l).map ((·, MVal.int 1))),
       acc.error || lines.any isUnmatchedLine⟩ := by
  induction lines generalizing acc with
  | nil => simp
  | cons l rest ih =>
    simp only [List.foldl_cons, List.filterMap_cons, List.any_cons]
    rw [ih]
    simp only [stderrStep, badStatusOf, queryFailedOf, madRpcOf, capMaskOf,
      printErrOf, isUnmatchedLine]
    cases h : classifyStderrLine l <;>
      simp [h, Bool.or_assoc, Bool.or_comm, Bool.or_left_comm]

/-! ## Claim theorems -/

/-- C1 counterexample: `PortXmitData` has a 64-bit width, yet at the
observed value `2 ^ 63` the at-risk branch IS taken — `reset_counter` is
invoked (here with resets disabled, producing a warning), so the claim that
64-bit counters never trigger it regardless of magnitude is false. -/
theorem c1_counterexample :
    counterBits "PortXmitData" = some 64 ∧
    (processOneCounter ⟨false, []⟩ ⟨init_metrics, false⟩ noEffects .ca "n"
        "0x1" "1" sampleCaps "PortXmitData" (2 ^ 63)).2.resetCalls =
      [("0x1", "1", "PortXmitData")] := by
  constructor
  · rfl
  · decide

/-- C1 (amended): a 64-bit counter is subject to the same threshold rule as
every other width — the at-risk branch (`reset_counter`) fires exactly when
the observed value is at least `2 ^ 63`; in particular no value below
`2 ^ 63` ever triggers a reset request or warning. -/
theorem c1_wide_counter_threshold (cfg : Config) (st : CState) (eff : Effects)
    (comp : InfinibandItem) (name guid port : String) (caps : ActiveCaps)
    (c : String) (v : Nat)
    (hfam : (lookupAssoc c st.metrics).isSome = true)
    (hb : counterBits c = some 64) :
    (processOneCounter cfg st eff comp name guid port caps c v).2.resetCalls =
      eff.resetCalls ++ (if v ≥ 2 ^ 63 then [(guid, port, c)] else []) := by
  cases hl : lookupAssoc c st.metrics with
  | none => rw [hl] at hfam; simp at hfam
  | some fam =>
    obtain ⟨m', _, _, hrun⟩ := processOneCounter_known cfg st eff comp name
      guid port caps c v _ _ hl hb
    rw [hrun]
    rw [show (64 : Nat) - 1 = 63 from rfl]
    by_cases h : v ≥ 2 ^ 63
    · rw [if_pos h, if_pos h]
      unfold reset_counter
      by_cases hr : cfg.canResetCounter <;> simp [hr]
    · rw [if_neg h, if_neg h]
      simp

/-- C1 (amended) witness: at `PortXmitData == 12345` (far below `2 ^ 63`)
neither a reset request nor a warning is issued. -/
theorem c1_wide_counter_threshold_witness :
    (lookupAssoc "PortXmitData" (⟨init_metrics, false⟩ : CState).metrics).isSome = true ∧
    counterBits "PortXmitData" = some 64 ∧
    (processOneCounter ⟨false, []⟩ ⟨init_metrics, false⟩ noEffects .ca "n"
        "0x1" "1" sampleCaps "PortXmitData" 12345).2.resetCalls =
      noEffects.resetCalls ++ (if 12345 ≥ 2 ^ 63 then [("0x1", "1", "PortXmitData")] else []) :=
  ⟨by decide, rfl,
   c1_wide_counter_threshold ⟨false, []⟩ ⟨init_metrics, false⟩ noEffects .ca
     "n" "0x1" "1" sampleCaps "PortXmitData" 12345 (by decide) rfl⟩

/-- C2: for a catalogued counter of bit width `b ∈ {4, 8, 16, 32}` the
at-risk branch (`reset_counter` invoked) is taken exactly when the observed
value is at least `2 ^ (b - 1)`; any smaller value never triggers it. -/
theorem c2_overflow_threshold (cfg : Config) (st : CState) (eff : Effects)
    (comp : InfinibandItem) (name guid port : String) (caps : ActiveCaps)
    (c : String) (v b : Nat)
    (hfam : (lookupAssoc c st.metrics).isSome = true)
    (hb : counterBits c = some b)
    (_hw : b = 4 ∨ b = 8 ∨ b = 16 ∨ b = 32) :
    (processOneCounter cfg st eff comp name guid port caps c v).2.resetCalls =
      eff.resetCalls ++ (if v ≥ 2 ^ (b - 1) then [(guid, port, c)] else []) := by
  cases hl : lookupAssoc c st.metrics with
  | none => rw [hl] at hfam; simp at hfam
  | some fam =>
    obtain ⟨m', _, _, hrun⟩ := processOneCounter_known cfg st eff comp name
      guid port caps c v _ _ hl hb
    rw [hrun]
    by_cases h : v ≥ 2 ^ (b - 1)
    · rw [if_pos h, if_pos h]
      unfold reset_counter
      by_cases hr : cfg.canResetCounter <;> simp [hr]
    · rw [if_neg h, if_neg h]
      simp

/-- C2 witness: `SymbolErrorCounter` (16 bits) at value `2 ^ 15` triggers
exactly one reset-counter invocation, and at `2 ^ 15 - 1` none. -/
theorem c2_overflow_threshold_witness :
    (lookupAssoc "SymbolErrorCounter" (⟨init_metrics, false⟩ : CState).metrics).isSome = true ∧
    counterBits "SymbolErrorCounter" = some 16 ∧
    (16 = 4 ∨ 16 = 8 ∨ 16 = 16 ∨ 16 = 32) ∧
    (processOneCounter ⟨false, []⟩ ⟨init_metrics, false⟩ noEffects .ca "n"
        "0x9" "2" sampleCaps "SymbolErrorCounter" 32768).2.resetCalls =
      noEffects.resetCalls ++ (if 32768 ≥ 2 ^ (16 - 1) then [("0x9", "2", "SymbolErrorCounter")] else []) ∧
    (processOneCounter ⟨false, []⟩ ⟨init_metrics, false⟩ noEffects .ca "n"
        "0x9" "2" sampleCaps "SymbolErrorCounter" 32767).2.resetCalls =
      noEffects.resetCalls ++ (if 32767 ≥ 2 ^ (16 - 1) then [("0x9", "2", "SymbolErrorCounter")] else []) :=
  ⟨by decide, rfl, by decide,
   c2_overflow_threshold ⟨false, []⟩ ⟨init_metrics, false⟩ noEffects .ca "n"
     "0x9" "2" sampleCaps "SymbolErrorCounter" 32768 16 (by decide) rfl
     (by decide),
   c2_overflow_threshold ⟨false, []⟩ ⟨init_metrics, false⟩ noEffects .ca "n"
     "0x9" "2" sampleCaps "SymbolErrorCounter" 32767 16 (by decide) rfl
     (by decide)⟩

/-- C4: a counter name absent from the metric table (i.e. from the Counter
Catalog that populated it) makes `self.metrics[counter]` raise `KeyError`
before anything is added: the value is not emitted (the metric table is
unchanged), the degraded flag is set, the name is logged, and the counter
loop simply moves on to the remaining counters. -/
theorem c4_unknown_counter_dropped (cfg : Config) (st : CState)
    (eff : Effects) (comp : InfinibandItem) (name guid port : String)
    (caps : ActiveCaps) (c : String) (v : Nat) (rest : List (String × Nat))
    (hnone : lookupAssoc c st.metrics = none) :
    processOneCounter cfg st eff comp name guid port caps c v =
      ({ st with scrapeWithErrors := true },
       { eff with missingLogs := eff.missingLogs ++ [c] }) ∧
    processCounters cfg comp name guid port caps (st, eff) ((c, v) :: rest) =
      processCounters cfg comp name guid port caps
        ({ st with scrapeWithErrors := true },
         { eff with missingLogs := eff.missingLogs ++ [c] }) rest := by
  have h1 : processOneCounter cfg st eff comp name guid port caps c v =
      ({ st with scrapeWithErrors := true },
       { eff with missingLogs := eff.missingLogs ++ [c] }) := by
    simp [processOneCounter, hnone]
  exact ⟨h1, by simp [processCounters, h1]⟩

/-- C4 witness: the unknown counter `ExcessiveBufferOverrunErrors` is
dropped while the catalogued `PortXmitData == 5` following it in the same
port line is still processed and emitted. -/
theorem c4_unknown_counter_dropped_witness :
    lookupAssoc "ExcessiveBufferOverrunErrors"
      (⟨init_metrics, false⟩ : CState).metrics = none ∧
    processCounters ⟨false, []⟩ .ca "n" "0x1" "1" sampleCaps
      (⟨init_metrics, false⟩, noEffects)
      [("ExcessiveBufferOverrunErrors", 7), ("PortXmitData", 5)] =
      processCounters ⟨false, []⟩ .ca "n" "0x1" "1" sampleCaps
        (⟨init_metrics, true⟩,
         { noEffects with missingLogs := ["ExcessiveBufferOverrunErrors"] })
        [("PortXmitData", 5)] :=
  ⟨by decide,
   (c4_unknown_counter_dropped ⟨false, []⟩ ⟨init_metrics, false⟩ noEffects
     .ca "n" "0x1" "1" sampleCaps "ExcessiveBufferOverrunErrors" 7
     [("PortXmitData", 5)] (by decide)).2⟩

/-- C8: with automatic reset disabled, a counter at or above its overflow
threshold only produces a warning log (with the resolved switch name): no
`perfquery` reset is launched, the out-of-range value is still appended to
the metric family unmodified, and the degraded flag is left exactly as it
was (so the overflow alone cannot turn `infiniband_scrape_ok` to 0). -/
theorem c8_overflow_warns_without_reset (cfg : Config) (st : CState)
    (eff : Effects) (comp : InfinibandItem) (name guid port : String)
    (caps : ActiveCaps) (c : String) (v b : Nat) (fam : Family)
    (hreset : cfg.canResetCounter = false)
    (hfam : lookupAssoc c st.metrics = some fam)
    (hb : counterBits c = some b)
    (hv : v ≥ 2 ^ (b - 1)) :
    lookupAssoc c
        (processOneCounter cfg st eff comp name guid port caps c v).1.metrics =
      some { fam with samples :=
        fam.samples ++ [(labelValuesOf comp name guid port caps, .int v)] } ∧
    (processOneCounter cfg st eff comp name guid port caps c v).1.scrapeWithErrors =
      st.scrapeWithErrors ∧
    (processOneCounter cfg st eff comp name guid port caps c v).2.resets =
      eff.resets ∧
    (processOneCounter cfg st eff comp name guid port caps c v).2.warnLogs =
      eff.warnLogs ++ [((lookupAssoc guid cfg.nodeName).getD guid, port, c)] := by
  obtain ⟨m', _, hl, hrun⟩ := processOneCounter_known cfg st eff comp name
    guid port caps c v _ _ hfam hb
  rw [hrun, if_pos hv]
  unfold reset_counter
  rw [hreset]
  exact ⟨hl, rfl, rfl, rfl⟩

/-- C8 witness: Scenario B — `LinkDownedCounter == 200` (8 bits, threshold
128) with resets disabled appends the sample with value 200, launches no
reset, logs one warning, and leaves the degraded flag untouched. -/
theorem c8_overflow_warns_without_reset_witness :
    (⟨false, []⟩ : Config).canResetCounter = false ∧
    lookupAssoc "LinkDownedCounter"
      ([("LinkDownedCounter",
         ⟨"infiniband_linkdownedcounter", "h", deviceLabels, true, []⟩)] :
        List (String × Family)) =
      some ⟨"infiniband_linkdownedcounter", "h", deviceLabels, true, []⟩ ∧
    counterBits "LinkDownedCounter" = some 8 ∧
    200 ≥ 2 ^ (8 - 1) ∧
    lookupAssoc "LinkDownedCounter"
        (processOneCounter ⟨false, []⟩
          ⟨[("LinkDownedCounter",
             ⟨"infiniband_linkdownedcounter", "h", deviceLabels, true, []⟩)],
            false⟩
          noEffects .switch "sw1" "0x1" "1" sampleCaps "LinkDownedCounter"
          200).1.metrics =
      some ⟨"infiniband_linkdownedcounter", "h", deviceLabels, true,
        [(labelValuesOf .switch "sw1" "0x1" "1" sampleCaps, .int 200)]⟩ ∧
    (processOneCounter ⟨false, []⟩
        ⟨[("LinkDownedCounter",
           ⟨"infiniband_linkdownedcounter", "h", deviceLabels, true, []⟩)],
          false⟩
        noEffects .switch "sw1" "0x1" "1" sampleCaps "LinkDownedCounter"
        200).1.scrapeWithErrors = false ∧
    (processOneCounter ⟨false, []⟩
        ⟨[("LinkDownedCounter",
           ⟨"infiniband_linkdownedcounter", "h", deviceLabels, true, []⟩)],
          false⟩
        noEffects .switch "sw1" "0x1" "1" sampleCaps "LinkDownedCounter"
        200).2.resets = [] ∧
    (processOneCounter ⟨false, []⟩
        ⟨[("LinkDownedCounter",
           ⟨"infiniband_linkdownedcounter", "h", deviceLabels, true, []⟩)],
          false⟩
        noEffects .switch "sw1" "0x1" "1" sampleCaps "LinkDownedCounter"
        200).2.warnLogs = [("0x1", "1", "LinkDownedCounter")] := by
  have h := c8_overflow_warns_without_reset ⟨false, []⟩
    ⟨[("LinkDownedCounter",
       ⟨"infiniband_linkdownedcounter", "h", deviceLabels, true, []⟩)], false⟩
    noEffects .switch "sw1" "0x1" "1" sampleCaps "LinkDownedCounter" 200 8
    ⟨"infiniband_linkdownedcounter", "h", deviceLabels, true, []⟩
    rfl (by decide) rfl (by decide)
  exact ⟨rfl, by decide, rfl, by decide, h.1, h.2.1, h.2.2.1, h.2.2.2⟩

/-- C10: the sample is appended to the counter family before the threshold
check runs, so even with automatic reset enabled an at-or-above-threshold
value is both emitted unmodified and accompanied by a `perfquery` reset
request in the same cycle. -/
theorem c10_emit_before_reset (cfg : Config) (st : CState) (eff : Effects)
    (comp : InfinibandItem) (name guid port : String) (caps : ActiveCaps)
    (c : String) (v b : Nat) (fam : Family)
    (hreset : cfg.canResetCounter = true)
    (hfam : lookupAssoc c st.metrics = some fam)
    (hb : counterBits c = some b)
    (hv : v ≥ 2 ^ (b - 1)) :
    lookupAssoc c
        (processOneCounter cfg st eff comp name guid port caps c v).1.metrics =
      some { fam with samples :=
        fam.samples ++ [(labelValuesOf comp name guid port caps, .int v)] } ∧
    (processOneCounter cfg st eff comp name guid port caps c v).2.resets =
      eff.resets ++ [(guid, port)] ∧
    (processOneCounter cfg st eff comp name guid port caps c v).2.resetCalls =
      eff.resetCalls ++ [(guid, port, c)] := by
  obtain ⟨m', _, hl, hrun⟩ := processOneCounter_known cfg st eff comp name
    guid port caps c v _ _ hfam hb
  rw [hrun, if_pos hv]
  unfold reset_counter
  rw [hreset]
  exact ⟨hl, rfl, rfl⟩

/-- C10 witness: with resets enabled, `PortXmitWait == 2 ^ 31` (32 bits) is
emitted and a reset request for the same GUID/port is issued in the same
step. -/
theorem c10_emit_before_reset_witness :
    (⟨true, []⟩ : Config).canResetCounter = true ∧
    lookupAssoc "PortXmitWait"
      ([("PortXmitWait",
         ⟨"infiniband_portxmitwait", "h", deviceLabels, true, []⟩)] :
        List (String × Family)) =
      some ⟨"infiniband_portxmitwait", "h", deviceLabels, true, []⟩ ∧
    counterBits "PortXmitWait" = some 32 ∧
    2 ^ 31 ≥ 2 ^ (32 - 1) ∧
    lookupAssoc "PortXmitWait"
        (processOneCounter ⟨true, []⟩
          ⟨[("PortXmitWait",
             ⟨"infiniband_portxmitwait", "h", deviceLabels, true, []⟩)],
            false⟩
          noEffects .ca "hca" "0x7" "3" sampleCaps "PortXmitWait"
          (2 ^ 31)).1.metrics =
      some ⟨"infiniband_portxmitwait", "h", deviceLabels, true,
        [(labelValuesOf .ca "hca" "0x7" "3" sampleCaps, .int (2 ^ 31))]⟩ ∧
    (processOneCounter ⟨true, []⟩
        ⟨[("PortXmitWait",
           ⟨"infiniband_portxmitwait", "h", deviceLabels, true, []⟩)],
          false⟩
        noEffects .ca "hca" "0x7" "3" sampleCaps "PortXmitWait"
        (2 ^ 31)).2.resets = [("0x7", "3")] := by
  have h := c10_emit_before_reset ⟨true, []⟩
    ⟨[("PortXmitWait",
       ⟨"infiniband_portxmitwait", "h", deviceLabels, true, []⟩)], false⟩
    noEffects .ca "hca" "0x7" "3" sampleCaps "PortXmitWait" (2 ^ 31) 32
    ⟨"infiniband_portxmitwait", "h", deviceLabels, true, []⟩
    rfl (by decide) rfl (by decide)
  exact ⟨rfl, by decide, rfl, by decide, h.1, h.2.1⟩

/-- C5 counterexample: a port pair whose link-info line reports the state
`Polling` (neither `Active` nor `Down`) still matches the generic
link-info shape, so `process_item` skips the pair silently with the state
untouched instead of raising a structural parse failure. -/
theorem c5_counterexample :
    portMatch samplePortLine = some ("0x1", "1", "[PortXmitData == 5]") ∧
    linkMatch pollingLine = true ∧
    activeLinkMatch pollingLine = none ∧
    processItemPair ⟨false, []⟩ ⟨[], false⟩ noEffects .ca "n"
        [samplePortLine, pollingLine] =
      .ok ⟨[], false⟩ noEffects := by
  refine ⟨by decide, by decide, by decide, ?_⟩
  decide

/-- C5 (amended): for a matched port line with port number above zero, a
link line that fails the generic link-info pattern raises the structural
parse failure; a link line matching the generic pattern but not the
active pattern (a `Down` link or any other state) is skipped silently; and
a link line matching the active pattern hands its named captures to
`parse_item`, producing the port's observation. -/
theorem c5_link_state_policy (cfg : Config) (st : CState) (eff : Effects)
    (comp : InfinibandItem) (name p l guid port rest : String)
    (hp : portMatch p = some (guid, port, rest))
    (hport : portNumOf port > 0) :
    (linkMatch l = false →
       processItemPair cfg st eff comp name [p, l] = .perr .noLinkInfo st eff) ∧
    (linkMatch l = true → activeLinkMatch l = none →
       processItemPair cfg st eff comp name [p, l] = .ok st eff) ∧
    (∀ caps, linkMatch l = true → activeLinkMatch l = some caps →
       processItemPair cfg st eff comp name [p, l] =
         (match parse_item cfg st eff comp name guid port rest caps with
          | some (st', eff') => .ok st' eff'
          | none => .crash)) := by
  refine ⟨fun h1 => ?_, fun h1 h2 => ?_, fun caps h1 h2 => ?_⟩
  · simp [processItemPair, hp, hport, h1]
  · simp [processItemPair, hp, hport, h1, h2]
  · simp [processItemPair, hp, hport, h1, h2]

/-- C5 (amended) witness: an `Active` link line paired with
`GUID 0x1 port 1:[PortXmitData == 5]` reaches `parse_item` with the
captured width/speed/remote endpoint. -/
theorem c5_link_state_policy_witness :
    portMatch samplePortLine = some ("0x1", "1", "[PortXmitData == 5]") ∧
    portNumOf "1" > 0 ∧
    linkMatch activeLine = true ∧
    activeLinkMatch activeLine = some sampleCaps ∧
    processItemPair ⟨false, []⟩ ⟨init_metrics, false⟩ noEffects .ca "hca"
        [samplePortLine, activeLine] =
      (match parse_item ⟨false, []⟩ ⟨init_metrics, false⟩ noEffects .ca "hca"
          "0x1" "1" "[PortXmitData == 5]" sampleCaps with
       | some (st', eff') => .ok st' eff'
       | none => .crash) :=
  ⟨by decide, by decide, by decide, by decide,
   (c5_link_state_policy ⟨false, []⟩ ⟨init_metrics, false⟩ noEffects .ca
     "hca" samplePortLine activeLine "0x1" "1" "[PortXmitData == 5]"
     (by decide) (by decide)).2.2 sampleCaps (by decide) (by decide)⟩

/-- C6 counterexample: with the Name Resolver mapping `0x1` to
`friendly-name`, the sample emitted for `PortXmitData` still carries the
report name `raw-header-name` (and the report's remote name) in its
labels, not the resolver's friendly name — the claim that emitted labels
use the resolver is false. -/
theorem c6_counterexample :
    lookupAssoc "0x1" ([("0x1", "friendly-name")] : List (String × String)) =
      some "friendly-name" ∧
    (match parse_item ⟨false, [("0x1", "friendly-name")]⟩
        ⟨init_metrics, false⟩ noEffects .switch "raw-header-name" "0x1" "1"
        "[PortXmitData == 5]" sampleCaps with
     | some (st', _) => (lookupAssoc "PortXmitData" st'.metrics).map (·.samples)
     | none => none) =
      some [(["switch", "raw-header-name", "0x1", "1", "0x2", "1", "node2"],
             MVal.int 5)] := by
  refine ⟨by decide, ?_⟩
  decide

/-- C6 (amended): the metric labels built by `parse_item` are taken
verbatim from the report — the metric table it produces does not depend on
the Name Resolver mapping at all, and a known counter's sample is labeled
with the component, the report's device name, GUID, port and the link
line's remote captures; the Name Resolver is consulted only by
`reset_counter`, whose log lines use the friendly name when the mapping
contains the GUID and the raw GUID string otherwise. -/
theorem c6_names_verbatim :
    (∀ (reset : Bool) (m m' : List (String × String)) (st : CState)
       (eff : Effects) (comp : InfinibandItem) (name guid port ctext : String)
       (caps : ActiveCaps),
       (parse_item ⟨reset, m⟩ st eff comp name guid port ctext caps).map (·.1) =
         (parse_item ⟨reset, m'⟩ st eff comp name guid port ctext caps).map (·.1)) ∧
    (∀ (cfg : Config) (st : CState) (eff : Effects) (comp : InfinibandItem)
       (name guid port : String) (caps : ActiveCaps) (c : String) (v b : Nat)
       (fam : Family),
       lookupAssoc c st.metrics = some fam → counterBits c = some b →
       lookupAssoc c
           (processOneCounter cfg st eff comp name guid port caps c v).1.metrics =
         some { fam with samples := fam.samples ++
           [([comp.value, name, guid, port, caps.remoteGuid, caps.remotePort,
              caps.nodeName], .int v)] }) ∧
    (∀ (cfg : Config) (eff : Effects) (guid port reason : String),
       (reset_counter cfg eff guid port reason).warnLogs =
         eff.warnLogs ++ (if cfg.canResetCounter then []
           else [((lookupAssoc guid cfg.nodeName).getD guid, port, reason)]) ∧
       (reset_counter cfg eff guid port reason).infoLogs =
         eff.infoLogs ++ (if cfg.canResetCounter then
           [((lookupAssoc guid cfg.nodeName).getD guid, port, reason)]
           else [])) := by
  refine ⟨?_, ?_, ?_⟩
  · intro reset m m' st eff comp name guid port ctext caps
    cases hg : gaugesAdd st comp name guid port caps with
    | none => simp [parse_item, hg]
    | some st1 =>
      have h := processCounters_state_blind ⟨reset, m⟩ ⟨reset, m'⟩ st1 eff eff
        comp name guid port caps (parse_counter ctext)
      simp [parse_item, hg, h]
  · intro cfg st eff comp name guid port caps c v b fam hfam hb
    obtain ⟨m', _, hl, hrun⟩ := processOneCounter_known cfg st eff comp name
      guid port caps c v _ _ hfam hb
    rw [hrun]
    exact hl
  · intro cfg eff guid port reason
    unfold reset_counter
    by_cases h : cfg.canResetCounter <;> simp [h]

/-- C6 (amended) witness: with the resolver mapping `0x1` to
`friendly-name` and resets disabled, `reset_counter` logs the warning under
`friendly-name`, while for an unmapped GUID `0x9` it logs under the raw
GUID. -/
theorem c6_names_verbatim_witness :
    (reset_counter ⟨false, [("0x1", "friendly-name")]⟩ noEffects "0x1" "1"
        "LinkDownedCounter").warnLogs =
      noEffects.warnLogs ++
        (if (⟨false, [("0x1", "friendly-name")]⟩ : Config).canResetCounter
         then []
         else [((lookupAssoc "0x1"
             (⟨false, [("0x1", "friendly-name")]⟩ : Config).nodeName).getD "0x1",
           "1", "LinkDownedCounter")]) ∧
    (reset_counter ⟨false, []⟩ noEffects "0x9" "2"
        "SymbolErrorCounter").warnLogs =
      noEffects.warnLogs ++
        (if (⟨false, []⟩ : Config).canResetCounter then []
         else [((lookupAssoc "0x9"
             (⟨false, []⟩ : Config).nodeName).getD "0x9",
           "2", "SymbolErrorCounter")]) :=
  ⟨(c6_names_verbatim.2.2 ⟨false, [("0x1", "friendly-name")]⟩ noEffects
      "0x1" "1" "LinkDownedCounter").1,
   (c6_names_verbatim.2.2 ⟨false, []⟩ noEffects "0x9" "2"
      "SymbolErrorCounter").1⟩

/-- C3: whenever the parsing stage of a cycle raises a `ParsingError` (a
structural anomaly of any kind — non-empty leading segment, incomplete
device item, missing all-ports marker, missing link-info line, or an
inconsistent line pair), `collect` still returns normally, emits exactly
the scrape-duration family and the scrape-ok family with value 0 and no
device/port counter or gauge family at all, and later cycles are entirely
unaffected by the failed one. -/
theorem c3_structural_anomaly (cfg : Config) (st : CState) (s : String)
    (k : PErrKind)
    (h : perrKindOf (runContent cfg ⟨init_metrics, false⟩ noEffects
           (splitReport s)) = some k) :
    isOkRun (collect cfg st s) = true ∧
    famsOf (collect cfg st s) = [scrapeDurationFam, scrapeOkFam 0] ∧
    (∀ (st₂ : CState) (s₂ : String),
       collect cfg (stateOf (collect cfg st s) st₂) s₂ = collect cfg st₂ s₂) := by
  cases hr : runContent cfg ⟨init_metrics, false⟩ noEffects (splitReport s) with
  | ok st1 eff => rw [hr] at h; simp [perrKindOf] at h
  | crash => rw [hr] at h; simp [perrKindOf] at h
  | perr k' st1 eff =>
    refine ⟨?_, ?_, fun st₂ s₂ => rfl⟩
    · simp [collect, hr, isOkRun]
    · simp [collect, hr, famsOf]

/-- C3 witness: the report `"x"` has no device header, so the leading
segment is non-empty; the cycle yields only the duration family and
`infiniband_scrape_ok == 0`. -/
theorem c3_structural_anomaly_witness :
    perrKindOf (runContent ⟨false, []⟩ ⟨init_metrics, false⟩ noEffects
        (splitReport "x")) = some .inconsistentLeading ∧
    famsOf (collect ⟨false, []⟩ ⟨init_metrics, false⟩ "x") =
      [scrapeDurationFam, scrapeOkFam 0] :=
  ⟨rfl,
   (c3_structural_anomaly ⟨false, []⟩ ⟨init_metrics, false⟩ "x"
     .inconsistentLeading rfl).2.1⟩

/-- C7: the stderr classifier tests every line of the blob against the
known patterns in the fixed priority order bad-status, query-failed,
mad-rpc-recv-failed (silently ignored), mad-rpc-failed, query-cap-mask,
print-error, the first match winning; each matched non-ignored line
contributes exactly one unit, keyed by that pattern's captured label
tuple, to the corresponding family; and the degraded flag is raised
exactly when some line matches none of the patterns. -/
theorem c7_stderr_classifier (stderr : String) :
    ((build_stderr_metrics stderr).1.map Family.samples =
      [(pySplitlines stderr).filterMap (fun l => (badStatusOf l).map ((·, MVal.int 1))),
       (pySplitlines stderr).filterMap (fun l => (queryFailedOf l).map ((·, MVal.int 1))),
       (pySplitlines stderr).filterMap (fun l => (madRpcOf l).map ((·, MVal.int 1))),
       (pySplitlines stderr).filterMap (fun l => (capMaskOf l).map ((·, MVal.int 1))),
       (pySplitlines stderr).filterMap (fun l => (printErrOf l).map ((·, MVal.int 1)))]) ∧
    ((build_stderr_metrics stderr).2 = true ↔
      ∃ l ∈ pySplitlines stderr, classifyStderrLine l = .unmatched) ∧
    (∀ l ls, bad_status_capture l = some ls →
      classifyStderrLine l = .badStatus ls) ∧
    (∀ l ls, bad_status_capture l = none → query_failed_capture l = some ls →
      classifyStderrLine l = .queryFailed ls) ∧
    (∀ l, bad_status_capture l = none → query_failed_capture l = none →
      mad_rpc_recv_failed_match l = true →
      classifyStderrLine l = .recvIgnored) ∧
    (∀ l ls, bad_status_capture l = none → query_failed_capture l = none →
      mad_rpc_recv_failed_match l = false →
      mad_rpc_failed_capture l = some ls →
      classifyStderrLine l = .madRpc ls) ∧
    (∀ l ls, bad_status_capture l = none → query_failed_capture l = none →
      mad_rpc_recv_failed_match l = false → mad_rpc_failed_capture l = none →
      query_cap_mask_capture l = some ls →
      classifyStderrLine l = .capMask ls) ∧
    (∀ l ls, bad_status_capture l = none → query_failed_capture l = none →
      mad_rpc_recv_failed_match l = false → mad_rpc_failed_capture l = none →
      query_cap_mask_capture l = none → print_error_capture l = some ls →
      classifyStderrLine l = .printErr ls) ∧
    (∀ l, classifyStderrLine l = .unmatched ↔
      (bad_status_capture l = none ∧ query_failed_capture l = none ∧
       mad_rpc_recv_failed_match l = false ∧ mad_rpc_failed_capture l = none ∧
       query_cap_mask_capture l = none ∧ print_error_capture l = none)) := by
  refine ⟨?_, ?_, ?_, ?_, ?_, ?_, ?_, ?_, ?_⟩
  · simp [build_stderr_metrics, stderr_fold_char]
  · simp only [build_stderr_metrics, stderr_fold_char]
    simp only [Bool.false_or, List.any_eq_true]
    constructor
    · rintro ⟨l, hl, hu⟩
      refine ⟨l, hl, ?_⟩
      revert hu
      unfold isUnmatchedLine
      cases classifyStderrLine l <;> simp
    · rintro ⟨l, hl, hu⟩
      exact ⟨l, hl, by simp [isUnmatchedLine, hu]⟩
  · intro l ls h1; simp [classifyStderrLine, h1]
  · intro l ls h1 h2; simp [classifyStderrLine, h1, h2]
  · intro l h1 h2 h3; simp [classifyStderrLine, h1, h2, h3]
  · intro l ls h1 h2 h3 h4; simp [classifyStderrLine, h1, h2, h3, h4]
  · intro l ls h1 h2 h3 h4 h5; simp [classifyStderrLine, h1, h2, h3, h4, h5]
  · intro l ls h1 h2 h3 h4 h5 h6
    simp [classifyStderrLine, h1, h2, h3, h4, h5, h6]
  · intro l
    unfold classifyStderrLine
    cases h1 : bad_status_capture l <;>
      cases h2 : query_failed_capture l <;> simp [h1, h2]
    cases h3 : mad_rpc_recv_failed_match l <;> simp [h3]
    cases h4 : mad_rpc_failed_capture l <;> simp [h4]
    cases h5 : query_cap_mask_capture l <;> simp [h5]
    cases h6 : print_error_capture l <;> simp [h6]

/-- C7 witness: a recv-failed stderr line is matched third in the cascade
and silently ignored — the blob consisting of that single line produces
five empty families and no degraded flag. -/
theorem c7_stderr_classifier_witness :
    bad_status_capture recvLine = none ∧
    query_failed_capture recvLine = none ∧
    mad_rpc_recv_failed_match recvLine = true ∧
    classifyStderrLine recvLine = .recvIgnored :=
  ⟨by decide, by decide, by decide,
   (c7_stderr_classifier recvLine).2.2.2.2.1 recvLine (by decide) (by decide)
     (by decide)⟩

/-- C9: one collection cycle is a pure function of the fixture text — the
state carried over from a previous cycle is overwritten before use, so
running the cycle a second time on the same fixture yields identical
metric families (excluding the timing meta-metrics) and an identical
degraded flag. -/
theorem c9_cycle_idempotent (cfg : Config) (st : CState) (s : String) :
    (famsOf (collect cfg (stateOf (collect cfg st s) st) s)).filter
        (fun f => !isTimingFam f) =
      (famsOf (collect cfg st s)).filter (fun f => !isTimingFam f) ∧
    (stateOf (collect cfg (stateOf (collect cfg st s) st) s) st).scrapeWithErrors =
      (stateOf (collect cfg st s) st).scrapeWithErrors ∧
    isOkRun (collect cfg (stateOf (collect cfg st s) st) s) =
      isOkRun (collect cfg st s) :=
  ⟨rfl, rfl, rfl⟩

end Infiniband
